import Mathlib

/-
Verification of the StrategyThrust browser client (src/app.jsx): the
session/authentication state machine and the job-lifecycle tracker.
The JavaScript source is shallowly embedded: component state becomes an
explicit record, async handlers become pure state-transition functions
taking the network response as an argument, and JavaScript values that
may be absent or malformed are modelled by an explicit value type with
JavaScript truthiness.
-/

namespace StrategyApp

/-! ## A small model of JavaScript values (for access grants and payload fields) -/

/-- A JavaScript value, as needed to model the access-grant handling in
`featureGate` and the session payloads: null, undefined, booleans,
integers, strings and objects (ordered field lists). -/
inductive JsVal where
  | null
  | undefined
  | bool (b : Bool)
  | num (n : Int)
  | str (s : String)
  | obj (fields : List (String × JsVal))

/-- JavaScript truthiness of a value (`!!v`). -/
def truthy : JsVal → Bool
  | .null => false
  | .undefined => false
  | .bool b => b
  | .num n => decide (n ≠ 0)
  | .str s => decide (s ≠ "")
  | .obj _ => true

/-- Whether a value is `null` or `undefined` (the values on which plain
member access throws in JavaScript). -/
def nullish : JsVal → Bool
  | .null => true
  | .undefined => true
  | _ => false

/-- Whether a value is an object. -/
def isObj : JsVal → Bool
  | .obj _ => true
  | _ => false

/-- Optional-chaining member access `v?.k`: `undefined` when `v` is
nullish, field lookup on objects, `undefined` on other primitives. -/
def optChain (v : JsVal) (k : String) : JsVal :=
  match v with
  | .null => .undefined
  | .undefined => .undefined
  | .obj fs => (fs.lookup k).getD .undefined
  | _ => .undefined

/-- Plain member access `v.k`, which throws a TypeError on `null` and
`undefined` and yields `undefined` for absent fields otherwise. -/
def getMem (v : JsVal) (k : String) : Except String JsVal :=
  match v with
  | .null => .error "TypeError"
  | .undefined => .error "TypeError"
  | .obj fs => .ok ((fs.lookup k).getD .undefined)
  | _ => .ok .undefined

/-- JavaScript `a || b`. -/
def jsOr (a b : JsVal) : JsVal :=
  if truthy a then a else b

/-! ## FeatureGate -/

/-- The capability record produced by `featureGate`.  The `tier` field is
kept as a raw JavaScript value because the source passes it through
unchanged (`feats.tier || access?.tier || "none"`). -/
structure Gate where
  app_access : Bool
  tier : JsVal
  language_addon : Bool
  strategic_master_plan : Bool
  advisor_chatbot : Bool
  is_admin : Bool

/-- `featureGate(access)` from src/app.jsx lines 212-223, with every
plain member access modelled in `Except` so that a thrown TypeError
would surface as an error.  `feats` is `access?.features || {}`; the
five feature reads are plain accesses on `feats`; `tier` falls back to
`access?.tier` and then `"none"`; `is_admin` is
`!!access?.subscription?.admin`. -/
def featureGate (access : JsVal) : Except String Gate :=
  let feats := jsOr (optChain access "features") (.obj [])
  (getMem feats "app_access").bind fun fa =>
  (getMem feats "tier").bind fun ft =>
  (getMem feats "language_addon").bind fun la =>
  (getMem feats "strategic_master_plan").bind fun smp =>
  (getMem feats "advisor_chatbot").bind fun ac =>
  .ok { app_access := truthy fa
        tier := jsOr ft (jsOr (optChain access "tier") (.str "none"))
        language_addon := truthy la
        strategic_master_plan := truthy smp
        advisor_chatbot := truthy ac
        is_admin := truthy (optChain (optChain access "subscription") "admin") }

/-- The total value computed by `featureGate` (same derivation with the
guaranteed-safe accesses written with `optChain`). -/
def gateOf (access : JsVal) : Gate :=
  let feats := jsOr (optChain access "features") (.obj [])
  { app_access := truthy (optChain feats "app_access")
    tier := jsOr (optChain feats "tier") (jsOr (optChain access "tier") (.str "none"))
    language_addon := truthy (optChain feats "language_addon")
    strategic_master_plan := truthy (optChain feats "strategic_master_plan")
    advisor_chatbot := truthy (optChain feats "advisor_chatbot")
    is_admin := truthy (optChain (optChain access "subscription") "admin") }

/-- The all-restrictive capability set of the specification. -/
def restrictiveGate : Gate :=
  { app_access := false
    tier := .str "none"
    language_addon := false
    strategic_master_plan := false
    advisor_chatbot := false
    is_admin := false }

/-! ## Network results

`apiFetch` resolves to `{ok:true, status, data}` on a 2xx response and
to `{ok:false, status, error}` otherwise; timeouts and transport
failures are caught and reported with `status 0` (and error `"timeout"`
for an abort). -/

/-- Result of an `apiFetch` call: HTTP status plus parsed data on
success, HTTP status (0 for timeout/transport failure) plus an error
string on failure. -/
inductive ApiResult (α : Type) where
  | success (status : Nat) (data : α)
  | failure (status : Nat) (error : String)
deriving DecidableEq

/-- JavaScript truthiness of a string field that may be absent
(`undefined`/`null` or the empty string are falsy). -/
def truthyStr : Option String → Bool
  | none => false
  | some s => !(s == "")

/-- `jobsStatus` (src/app.jsx lines 266-271): issue the primary
`jobs/status` query; return it when it is ok; when it failed with HTTP
404 return the `uploads/list` fallback result instead; return any other
failure as-is.  The Bool records whether the fallback listing was
consulted. -/
def jobsStatus {α : Type} (primary fallback : ApiResult α) : ApiResult α × Bool :=
  match primary with
  | .success _ _ => (primary, false)
  | .failure st _ => if st = 404 then (fallback, true) else (primary, false)

/-! ## Job wizard state (the JobWizard component of src/app.jsx) -/

/-- One entry of the upload listing: `{file_set, filename, key, size}`. -/
structure FileEntry where
  file_set : String
  filename : String
  key : String
  size : Nat
deriving DecidableEq

/-- The mutable state of the JobWizard component that the claims are
about: `jobId`, `uploads`, `missingRequired`, `status` (React state) and
the `autoDownloadedRef` latch. -/
structure WizardState where
  jobId : Option String
  uploads : List FileEntry
  missingRequired : List String
  status : String
  autoDownloaded : Bool
deriving DecidableEq

/-- The component state at mount: `useState(null)`, `useState([])`,
`useState([])`, `useState("draft")`, `useRef(false)`. -/
def initialWizard : WizardState :=
  { jobId := none
    uploads := []
    missingRequired := []
    status := "draft"
    autoDownloaded := false }

/-- Payload of a successful `uploads/list` response:
`{files, missing_required_sets, status}`, each field possibly absent. -/
structure ListData where
  files : Option (List FileEntry)
  missing_required_sets : Option (List String)
  status : Option String
deriving DecidableEq

/-- Payload of a successful `jobsStatus` response: either the
`jobs/status` shape (`{status}` or `{job:{status}}`) or, after the 404
fallback, the `uploads/list` shape. -/
structure PollData where
  status : Option String
  job_status : Option String
  files : Option (List FileEntry)
  missing_required_sets : Option (List String)
deriving DecidableEq

/-- Payload of a successful `uploads/init` response. -/
structure InitData where
  job_id : Option String
  required : Option (List String)
  optionalSets : Option (List String)
  warnings : Option (List String)
deriving DecidableEq

/-- `r.data?.status || r.data?.job?.status || null` of `pollOnce`: the
first truthy status string of the payload, if any. -/
def effStatus (d : PollData) : Option String :=
  if truthyStr d.status then d.status
  else if truthyStr d.job_status then d.job_status
  else none

/-- The continuation of one `pollOnce(id)` call (src/app.jsx lines
421-440) once its `jobsStatus` response `r` has arrived: guard on a
falsy `id`, return unchanged on a failed response, otherwise apply
`setStatus` for a truthy status, overwrite `uploads` and
`missingRequired` when the payload carries `files`, and test-and-set the
`autoDownloadedRef` latch, handing off a download action for the
captured `id`.  The response is applied to the current component state
`s` — the source compares nothing against `s.jobId`.  Returns the new
state and the job id a download was triggered for, if any. -/
def pollOnce (autoDownloadEnabled : Bool) (id : Option String) (s : WizardState)
    (r : ApiResult PollData) : WizardState × Option String :=
  match id with
  | none => (s, none)
  | some jid =>
    if jid == "" then (s, none)
    else
      match r with
      | .failure _ _ => (s, none)
      | .success _ d =>
        let st := effStatus d
        let s1 := match st with
          | some v => { s with status := v }
          | none => s
        let s2 := match d.files with
          | some fs => { s1 with uploads := fs
                                 missingRequired := d.missing_required_sets.getD [] }
          | none => s1
        if autoDownloadEnabled && !s.autoDownloaded && (st == some "delivered") then
          ({ s2 with autoDownloaded := true }, some jid)
        else
          (s2, none)

/-- The continuation of one `refreshUploads(id)` call (src/app.jsx lines
412-419) once its `uploads/list` response has arrived: no-op for a falsy
id or a failed response, otherwise overwrite `uploads` and
`missingRequired` (defaulting to `[]`) and set
`status` to `r.data?.status || status` (the old status when the
response status is absent or empty). -/
def refreshUploads (s : WizardState) (r : ApiResult ListData) : WizardState :=
  match s.jobId with
  | none => s
  | some jid =>
    if jid == "" then s
    else
      match r with
      | .failure _ _ => s
      | .success _ d =>
        { s with uploads := d.files.getD []
                 missingRequired := d.missing_required_sets.getD []
                 status := match d.status with
                   | some v => if v == "" then s.status else v
                   | none => s.status }

/-- `g.app_access || g.is_admin`: the capability precondition of
`onInit`. -/
def capOk (g : Gate) : Bool :=
  g.app_access || g.is_admin

/-- Local failures and the server failure of `onInit`. -/
inductive InitErr where
  | accessBlocked
  | missingToken
  | initFailed (e : String)
deriving DecidableEq

/-- `onInit` (src/app.jsx lines 448-472) as a state transition: the two
local guards come first (no request issued, state untouched, the
response argument is irrelevant there); past the guards the
`autoDownloadedRef` latch is reset to `false` before the request, and a
successful response installs the new job (`jobId` from the payload,
empty uploads, `missingRequired := required`, status `"draft"`).  The
third component records whether the `uploads/init` network call was
issued. -/
def onInit (g : Gate) (token : Option String) (r : ApiResult InitData)
    (s : WizardState) : WizardState × Option InitErr × Bool :=
  if capOk g = false then (s, some .accessBlocked, false)
  else if truthyStr token = false then (s, some .missingToken, false)
  else
    let s0 := { s with autoDownloaded := false }
    match r with
    | .failure _ e => (s0, some (.initFailed e), true)
    | .success _ d =>
        ({ s0 with jobId := d.job_id
                   uploads := []
                   missingRequired := d.required.getD []
                   status := "draft" }, none, true)

/-- Outcome of `onSubmit`. -/
inductive SubmitOutcome where
  | noActiveJob
  | missingSets (sets : List String)
  | submitFailed (e : String)
  | submitted
deriving DecidableEq

/-- `onSubmit` (src/app.jsx lines 485-498) as a state transition.  It
guards on `jobId`, awaits `refreshUploads(jobId)` (whose setters update
the component state for the next render), and then tests
`(missingRequired || []).length` — the **render-time closure value**,
i.e. the pre-refresh `s.missingRequired`, not the refreshed one.  When
that stale list is empty it issues the `jobs/submit` call; on success it
sets status to `"pending_review"` and runs a reconciling `pollOnce`.
The third component records whether the submit network call was
issued. -/
def onSubmit (autoDownloadEnabled : Bool) (s : WizardState)
    (refreshResp : ApiResult ListData) (submitResp : ApiResult Unit)
    (pollResp : ApiResult PollData) : WizardState × SubmitOutcome × Bool :=
  match s.jobId with
  | none => (s, .noActiveJob, false)
  | some jid =>
    let s1 := refreshUploads s refreshResp
    if !s.missingRequired.isEmpty then
      (s1, .missingSets s.missingRequired, false)
    else
      match submitResp with
      | .failure _ e => (s1, .submitFailed e, true)
      | .success _ _ =>
        let s2 := { s1 with status := "pending_review" }
        ((pollOnce autoDownloadEnabled (some jid) s2 pollResp).1, .submitted, true)

/-- Whether a poll response is a successful one that reports status
`delivered`. -/
def isDelivered : ApiResult PollData → Bool
  | .success _ d => effStatus d == some "delivered"
  | .failure _ _ => false

/-- Run a sequence of poll cycles (the 3.5s interval of the JobWizard
effect), each cycle calling `pollOnce` with the current `jobId`;
returns the final state and how many download actions were handed
off. -/
def runPolls (autoDownloadEnabled : Bool) (s : WizardState)
    (resps : List (ApiResult PollData)) : WizardState × Nat :=
  match resps with
  | [] => (s, 0)
  | r :: rest =>
    let p := pollOnce autoDownloadEnabled s.jobId s r
    let q := runPolls autoDownloadEnabled p.1 rest
    (q.1, (if p.2.isSome then 1 else 0) + q.2)

/-! ## Session persistence and the verify exchange -/

/-- The persisted Session snapshot
(`{email, access, app_url, verified_at, session_token}`). -/
structure Session where
  email : String
  access : JsVal
  app_url : String
  verified_at : String
  session_token : String

/-- The persistent store: the session snapshot and the bare session
token, kept under separate keys. -/
structure Store where
  session : Option Session
  sessionToken : Option String

/-- The consumed fields of a verify response payload. -/
structure VerifyPayload where
  session_token : Option String
  email : String
  access : JsVal
  app_url : String

/-- `payload?.session_token || null`: the session token when present
and non-empty. -/
def tokenOf (p : VerifyPayload) : Option String :=
  match p.session_token with
  | none => none
  | some t => if t == "" then none else some t

/-- App routing steps of the App component. -/
inductive Step where
  | login
  | verify
  | app
deriving DecidableEq

/-- The externally-visible address: its query parameters. -/
structure Url where
  params : List (String × String)

/-- `u.searchParams.delete(k)` followed by `history.replaceState`: all
parameters named `k` are removed, the remaining ones are preserved,
with no navigation. -/
def deleteParam (u : Url) (k : String) : Url :=
  ⟨u.params.filter (fun q => q.1 != k)⟩

/-- Query-parameter lookup on an address. -/
def lookupParam (u : Url) (k : String) : Option String :=
  u.params.lookup k

/-- `onVerified(payload)` (src/app.jsx lines 970-999): when the payload
lacks a truthy `session_token`, show an error and route to `login`,
writing nothing; otherwise persist the bare token, build and persist
the full Session (`verified_at` is the current time, passed in as
`now`), scrub the `token` parameter from the address via history
replace, and route to `app`. -/
def onVerified (now : String) (p : VerifyPayload) (store : Store) (u : Url) :
    Store × Url × Step :=
  match tokenOf p with
  | none => (store, u, .login)
  | some tok =>
    let sess : Session :=
      { email := p.email, access := p.access, app_url := p.app_url,
        verified_at := now, session_token := tok }
    ({ session := some sess, sessionToken := some tok }, deleteParam u "token", .app)

/-- The VerifyScreen flow (src/app.jsx lines 355-366 together with the
App callbacks): a failed verify request routes to `login` via `onError`
and touches neither the store nor the address; a successful request
hands its payload to `onVerified`. -/
def verifyFlow (now : String) (r : ApiResult VerifyPayload) (store : Store) (u : Url) :
    Store × Url × Step :=
  match r with
  | .failure _ _ => (store, u, .login)
  | .success _ p => onVerified now p store u

/-- `loadAutoDownload` (src/app.jsx lines 54-60): read the raw stored
string (the whole read may throw, modelled by `Except`); the result is
`true` when the key is absent or the read throws, and `raw === "true"`
otherwise. -/
def loadAutoDownload (storage : Except Unit (Option String)) : Bool :=
  match storage with
  | .error _ => true
  | .ok none => true
  | .ok (some raw) => raw == "true"

/-! ## Helper lemmas -/

theorem jsOr_obj_not_nullish (x : JsVal) (l : List (String × JsVal)) :
    nullish (jsOr x (.obj l)) = false := by
  unfold jsOr
  split
  · next h => cases x <;> simp_all [truthy, nullish]
  · rfl

theorem getMem_of_not_nullish (v : JsVal) (k : String) (h : nullish v = false) :
    getMem v k = .ok (optChain v k) := by
  cases v <;> first
    | rfl
    | simp [nullish] at h

theorem featureGate_eq_gateOf (v : JsVal) : featureGate v = Except.ok (gateOf v) := by
  have hg : ∀ k, getMem (jsOr (optChain v "features") (.obj [])) k
      = .ok (optChain (jsOr (optChain v "features") (.obj [])) k) :=
    fun k => getMem_of_not_nullish _ k (jsOr_obj_not_nullish _ _)
  simp only [featureGate, gateOf, hg, Except.bind]

theorem gateOf_nonObj (v : JsVal) (h : isObj v = false) : gateOf v = restrictiveGate := by
  cases v <;> first
    | rfl
    | simp [isObj] at h

theorem pollOnce_latched (adl : Bool) (id : Option String) (s : WizardState)
    (r : ApiResult PollData) (h : s.autoDownloaded = true) :
    (pollOnce adl id s r).2 = none
    ∧ (pollOnce adl id s r).1.autoDownloaded = true
    ∧ (pollOnce adl id s r).1.jobId = s.jobId := by
  cases id with
  | none => exact ⟨rfl, h, rfl⟩
  | some jid =>
    by_cases hj : (jid == "") = true
    · simp [pollOnce, hj, h]
    · cases r with
      | failure st e => simp [pollOnce, hj, h]
      | success st2 d =>
        cases h1 : effStatus d <;> cases hf : d.files <;>
          simp [pollOnce, hj, h, h1, hf]

theorem pollOnce_not_delivered (adl : Bool) (id : Option String) (s : WizardState)
    (r : ApiResult PollData) (h : isDelivered r = false) :
    (pollOnce adl id s r).2 = none
    ∧ (pollOnce adl id s r).1.autoDownloaded = s.autoDownloaded
    ∧ (pollOnce adl id s r).1.jobId = s.jobId := by
  cases id with
  | none => exact ⟨rfl, rfl, rfl⟩
  | some jid =>
    by_cases hj : (jid == "") = true
    · simp [pollOnce, hj]
    · cases r with
      | failure st e => simp [pollOnce, hj]
      | success st2 d =>
        have h2 : (effStatus d == some "delivered") = false := by
          simpa [isDelivered] using h
        cases h1 : effStatus d <;> rw [h1] at h2 <;> cases hf : d.files <;>
          simp [pollOnce, hj, h1, hf, h2]

theorem pollOnce_fires (s : WizardState) (j : String)
    (r : ApiResult PollData) (hj : (j == "") = false) (h : s.autoDownloaded = false)
    (hd : isDelivered r = true) :
    (pollOnce true (some j) s r).2 = some j
    ∧ (pollOnce true (some j) s r).1.autoDownloaded = true
    ∧ (pollOnce true (some j) s r).1.jobId = s.jobId := by
  cases r with
  | failure st e => simp [isDelivered] at hd
  | success st2 d =>
    have h2 : (effStatus d == some "delivered") = true := by
      simpa [isDelivered] using hd
    cases h1 : effStatus d <;> rw [h1] at h2
    · simp at h2
    · cases hf : d.files <;> simp [pollOnce, hj, h, h1, hf, h2]

theorem runPolls_latched (adl : Bool) (s : WizardState)
    (resps : List (ApiResult PollData)) (h : s.autoDownloaded = true) :
    (runPolls adl s resps).2 = 0 := by
  induction resps generalizing s with
  | nil => rfl
  | cons r rest ih =>
    have hp := pollOnce_latched adl s.jobId s r h
    simp [runPolls, hp.1, ih _ hp.2.1]

theorem runPolls_delivered_once (s : WizardState) (resps : List (ApiResult PollData))
    (hid : truthyStr s.jobId = true) (h : s.autoDownloaded = false)
    (hd : resps.any isDelivered = true) :
    (runPolls true s resps).2 = 1 := by
  induction resps generalizing s with
  | nil => simp [List.any] at hd
  | cons r rest ih =>
    by_cases hr : isDelivered r = true
    · obtain ⟨j, hjid⟩ : ∃ j, s.jobId = some j := by
        cases hsj : s.jobId with
        | none => rw [hsj] at hid; simp [truthyStr] at hid
        | some j => exact ⟨j, rfl⟩
      have hjne : (j == "") = false := by
        rw [hjid] at hid
        simp only [truthyStr, Bool.not_eq_true'] at hid
        exact hid
      have hp := pollOnce_fires s j r hjne h hr
      have hq := runPolls_latched true (pollOnce true (some j) s r).1 rest hp.2.1
      simp [runPolls, hjid, hp.1, hq]
    · have hr2 : isDelivered r = false := by
        cases hv : isDelivered r
        · rfl
        · exact absurd hv hr
      have hp := pollOnce_not_delivered true s.jobId s r hr2
      have hrest : rest.any isDelivered = true := by
        simpa [List.any_cons, hr2] using hd
      have h1 : truthyStr (pollOnce true s.jobId s r).1.jobId = true := by
        rw [hp.2.2]; exact hid
      have h2 : (pollOnce true s.jobId s r).1.autoDownloaded = false := by
        rw [hp.2.1]; exact h
      simp [runPolls, hp.1, ih _ h1 h2 hrest]

theorem lookup_filter_ne (k : String) (l : List (String × String)) :
    (l.filter (fun q => q.1 != k)).lookup k = none := by
  induction l with
  | nil => rfl
  | cons a t ih =>
    obtain ⟨p, q⟩ := a
    by_cases h : p = k
    · simp [List.filter_cons, h, ih]
    · have h2 : (k == p) = false := beq_eq_false_iff_ne.mpr fun he => h he.symm
      simp [List.filter_cons, h, List.lookup, h2, ih]

/-! ## The claims -/

/-- C1: for an active job id, across any sequence of poll cycles at
least one of which reports status `delivered`, with the auto-download
preference enabled and the per-job latch unset, exactly one download
action is handed off (subsequent `delivered` observations are no-ops);
moreover the latch starts `false` at mount and is reset to `false` by
any `onInit` that passes its local preconditions (job replacement). -/
theorem C1_delivery_trigger_exactly_once :
    (∀ (s : WizardState) (resps : List (ApiResult PollData)),
       truthyStr s.jobId = true → s.autoDownloaded = false →
       resps.any isDelivered = true →
       (runPolls true s resps).2 = 1)
    ∧ initialWizard.autoDownloaded = false
    ∧ (∀ (g : Gate) (token : Option String) (r : ApiResult InitData) (s : WizardState),
         (capOk g && truthyStr token) = true →
         ((onInit g token r s).1).autoDownloaded = false) := by
  refine ⟨fun s resps hid h hd => runPolls_delivered_once s resps hid h hd, rfl, ?_⟩
  intro g token r s hpre
  obtain ⟨h1, h2⟩ := Bool.and_eq_true_iff.mp hpre
  cases r <;> simp [onInit, h1, h2]

/-- Witness for C1: three consecutive `delivered` poll responses for
job `job_1` with the latch initially unset produce exactly one download
action, and an `onInit` that passes its guards resets the latch. -/
theorem C1_delivery_trigger_exactly_once_witness :
    (runPolls true
      { jobId := some "job_1", uploads := [], missingRequired := [],
        status := "generating", autoDownloaded := false }
      [ApiResult.success 200
         { status := some "delivered", job_status := none, files := none,
           missing_required_sets := none },
       ApiResult.success 200
         { status := some "delivered", job_status := none, files := none,
           missing_required_sets := none },
       ApiResult.success 200
         { status := some "delivered", job_status := none, files := none,
           missing_required_sets := none }]).2 = 1
    ∧ ((onInit
         { app_access := true, tier := .str "pro", language_addon := false,
           strategic_master_plan := false, advisor_chatbot := false, is_admin := false }
         (some "tok")
         (ApiResult.success 200
           { job_id := some "job_2", required := some ["financials"],
             optionalSets := some [], warnings := some [] })
         { jobId := some "job_1", uploads := [], missingRequired := [],
           status := "delivered", autoDownloaded := true }).1).autoDownloaded = false :=
  ⟨C1_delivery_trigger_exactly_once.1 _ _ (by decide) (by decide) (by decide),
   C1_delivery_trigger_exactly_once.2.2 _ _ _ _ (by decide)⟩

/-- C2: the code has no stale-response guard — a late-arriving poll
response tagged with the superseded job id `job_1`, applied after a
second init has installed `job_2` (status `draft`, fresh latch), does
mutate the new job's state: its status becomes `delivered`, the fresh
latch is consumed, and a download action for the old id `job_1` is
handed off, while the active job id is still `job_2`. -/
theorem C2_stale_poll_response_mutates_new_job :
    (let s2 : WizardState :=
       { jobId := some "job_2", uploads := [], missingRequired := ["financials"],
         status := "draft", autoDownloaded := false }
     let stale : ApiResult PollData :=
       .success 200
         { status := some "delivered", job_status := none, files := none,
           missing_required_sets := none }
     s2.jobId = some "job_2"
     ∧ (pollOnce true (some "job_1") s2 stale).1.status = "delivered"
     ∧ (pollOnce true (some "job_1") s2 stale).1.jobId = some "job_2"
     ∧ (pollOnce true (some "job_1") s2 stale).1.autoDownloaded = true
     ∧ (pollOnce true (some "job_1") s2 stale).2 = some "job_1") := by
  decide

/-- C3: `onSubmit` gates on the render-time (pre-refresh) value of
`missingRequired`, not on the refreshed one.  Starting from a state
whose stale `missingRequired` is empty, a forced refresh that reports
`missing_required_sets = ["financials"]` does not stop the submit: the
`jobs/submit` network call is issued (third component `true`) even
though the refreshed state records the missing set. -/
theorem C3_submit_issued_despite_refreshed_missing_sets :
    (let s0 : WizardState :=
       { jobId := some "job_1",
         uploads := [{ file_set := "financials", filename := "f.pdf", key := "k1", size := 10 }],
         missingRequired := [], status := "draft", autoDownloaded := false }
     let refreshed : ApiResult ListData :=
       .success 200
         { files := some [], missing_required_sets := some ["financials"], status := none }
     let r := onSubmit false s0 refreshed (.success 200 ()) (.failure 0 "timeout")
     r.2.2 = true
     ∧ r.2.1 = .submitted
     ∧ r.1.missingRequired = ["financials"]
     ∧ r.1.status = "pending_review") := by
  decide

/-- C4: after a successful verify exchange whose payload carries a
session token, the persistent store contains exactly that session token
and the full Session built from the payload (access grant included),
the address no longer carries a `token` query parameter, and the app
step is entered. -/
theorem C4_verify_persists_session_and_scrubs_token :
    ∀ (now : String) (p : VerifyPayload) (store : Store) (u : Url) (tok : String),
      tokenOf p = some tok →
      (onVerified now p store u).1.sessionToken = some tok
      ∧ (onVerified now p store u).1.session =
          some { email := p.email, access := p.access, app_url := p.app_url,
                 verified_at := now, session_token := tok }
      ∧ lookupParam (onVerified now p store u).2.1 "token" = none
      ∧ (onVerified now p store u).2.2 = Step.app := by
  intro now p store u tok h
  refine ⟨?_, ?_, ?_, ?_⟩ <;>
    simp [onVerified, h, lookupParam, deleteParam, lookup_filter_ne]

/-- Witness for C4: the reference round trip — a payload with
`session_token "tok1"` and an access grant, starting from an empty
store and an address carrying a one-time `token` parameter. -/
theorem C4_verify_persists_session_and_scrubs_token_witness :
    (onVerified "2026-10-12T00:00:00Z"
       { session_token := some "tok1", email := "a@b.com",
         access := .obj [("features", .obj [("app_access", .bool true)])],
         app_url := "https://app.strategythrust.com" }
       { session := none, sessionToken := none }
       ⟨[("token", "onetime"), ("x", "1")]⟩).1.sessionToken = some "tok1"
    ∧ lookupParam
        (onVerified "2026-10-12T00:00:00Z"
          { session_token := some "tok1", email := "a@b.com",
            access := .obj [("features", .obj [("app_access", .bool true)])],
            app_url := "https://app.strategythrust.com" }
          { session := none, sessionToken := none }
          ⟨[("token", "onetime"), ("x", "1")]⟩).2.1 "token" = none :=
  ⟨(C4_verify_persists_session_and_scrubs_token _ _ _ _ "tok1" (by decide)).1,
   (C4_verify_persists_session_and_scrubs_token _ _ _ _ "tok1" (by decide)).2.2.1⟩

/-- C5 counterexample: the malformed access grant
`{subscription:{admin:true}}` — it lacks the `features` field required
of an AccessGrant — does not map to the all-restrictive default:
`featureGate` grants `is_admin = true`, while the restrictive default
has `is_admin = false`. -/
theorem C5_malformed_grant_not_restrictive :
    (let mal : JsVal := .obj [("subscription", .obj [("admin", .bool true)])]
     optChain mal "features" = .undefined
     ∧ featureGate mal = .ok (gateOf mal)
     ∧ (gateOf mal).is_admin = true
     ∧ restrictiveGate.is_admin = false) :=
  ⟨rfl, rfl, rfl, rfl⟩

/-- C5 (amended): `featureGate` is total — it never throws, returning
for every input the pure derivation `gateOf` — and every input that is
not an object (null, undefined, booleans, numbers, strings) yields
exactly the all-restrictive default; for object inputs each field is
derived purely from the grant with per-field restrictive defaults. -/
theorem C5_feature_gate_total_with_default :
    (∀ v : JsVal, featureGate v = Except.ok (gateOf v))
    ∧ (∀ v : JsVal, isObj v = false → gateOf v = restrictiveGate) :=
  ⟨featureGate_eq_gateOf, gateOf_nonObj⟩

/-- Witness for C5: at `null` the gate does not throw and produces the
all-restrictive default. -/
theorem C5_feature_gate_total_with_default_witness :
    featureGate JsVal.null = Except.ok (gateOf JsVal.null)
    ∧ gateOf JsVal.null = restrictiveGate :=
  ⟨C5_feature_gate_total_with_default.1 JsVal.null,
   C5_feature_gate_total_with_default.2 JsVal.null rfl⟩

/-- C6: `onInit` fails locally without issuing the network call when
the capability check fails (AccessBlocked) or no session token is
present (MissingToken) — in both cases the state is unchanged and the
outcome is the same for every possible response — and the init request
is issued exactly when both preconditions hold. -/
theorem C6_init_preconditions_local_failure :
    ∀ (g : Gate) (token : Option String) (r : ApiResult InitData) (s : WizardState),
      ((onInit g token r s).2.2 = (capOk g && truthyStr token))
      ∧ (capOk g = false → onInit g token r s = (s, some .accessBlocked, false))
      ∧ (capOk g = true → truthyStr token = false →
          onInit g token r s = (s, some .missingToken, false)) := by
  intro g token r s
  refine ⟨?_, ?_, ?_⟩
  · by_cases h1 : capOk g = false
    · simp [onInit, h1]
    · have h1t : capOk g = true := by
        revert h1; cases capOk g <;> simp
      by_cases h2 : truthyStr token = false
      · simp [onInit, h1t, h2]
      · have h2t : truthyStr token = true := by
          revert h2; cases truthyStr token <;> simp
        cases r <;> simp [onInit, h1t, h2t]
  · intro h; simp [onInit, h]
  · intro h1 h2; simp [onInit, h1, h2]

/-- Witness for C6: with the all-restrictive gate the init fails with
AccessBlocked and no call; with an app-access gate but no token it
fails with MissingToken and no call; with both preconditions the call
is issued. -/
theorem C6_init_preconditions_local_failure_witness :
    (onInit restrictiveGate (some "tok")
       (ApiResult.success 200
         { job_id := some "job_1", required := some ["financials"],
           optionalSets := some ["notes"], warnings := some [] })
       initialWizard
     = (initialWizard, some .accessBlocked, false))
    ∧ (onInit
         { app_access := true, tier := .str "starter", language_addon := false,
           strategic_master_plan := false, advisor_chatbot := false, is_admin := false }
         none
         (ApiResult.success 200
           { job_id := some "job_1", required := some ["financials"],
             optionalSets := some ["notes"], warnings := some [] })
         initialWizard
       = (initialWizard, some .missingToken, false))
    ∧ ((onInit
         { app_access := true, tier := .str "starter", language_addon := false,
           strategic_master_plan := false, advisor_chatbot := false, is_admin := false }
         (some "tok")
         (ApiResult.success 200
           { job_id := some "job_1", required := some ["financials"],
             optionalSets := some ["notes"], warnings := some [] })
         initialWizard).2.2 = true) :=
  ⟨(C6_init_preconditions_local_failure _ _ _ _).2.1 (by decide),
   (C6_init_preconditions_local_failure _ _ _ _).2.2 (by decide) (by decide),
   ((C6_init_preconditions_local_failure _ _ _ _).1).trans (by decide)⟩

/-- C7: `jobsStatus` falls back to the uploads listing exactly when the
primary status query failed with HTTP 404; any other failure —
including the status-0 timeout/transport failures — is returned as-is
without the fallback, and a success is returned without consulting the
listing. -/
theorem C7_status_fallback_only_on_404 :
    ∀ (primary fallback : ApiResult ListData),
      (jobsStatus primary fallback = (fallback, true) ↔ ∃ e, primary = .failure 404 e)
      ∧ (∀ st e, primary = .failure st e → st ≠ 404 →
           jobsStatus primary fallback = (primary, false))
      ∧ (∀ st d, primary = .success st d → jobsStatus primary fallback = (primary, false))
      ∧ jobsStatus (ApiResult.failure 0 "timeout") fallback
          = (ApiResult.failure 0 "timeout", false) := by
  intro primary fallback
  refine ⟨⟨?_, ?_⟩, ?_, ?_, ?_⟩
  · intro h
    cases primary with
    | success st d => simp [jobsStatus, Prod.ext_iff] at h
    | failure st e =>
      by_cases h4 : st = 404
      · exact ⟨e, by rw [h4]⟩
      · simp [jobsStatus, h4, Prod.ext_iff] at h
  · rintro ⟨e, rfl⟩
    simp [jobsStatus]
  · rintro st e rfl h4
    simp [jobsStatus, h4]
  · rintro st d rfl
    simp [jobsStatus]
  · simp [jobsStatus]

/-- Witness for C7: a 404 consults the listing, a 500 and a timeout do
not, a success is returned as-is. -/
theorem C7_status_fallback_only_on_404_witness :
    (jobsStatus (ApiResult.failure 404 "not found")
       (ApiResult.success 200
         ({ files := some [], missing_required_sets := some [], status := some "draft" } : ListData))
     = (ApiResult.success 200
         ({ files := some [], missing_required_sets := some [], status := some "draft" } : ListData), true))
    ∧ (jobsStatus (ApiResult.failure 500 "boom")
         (ApiResult.success 200
           ({ files := some [], missing_required_sets := some [], status := some "draft" } : ListData))
       = (ApiResult.failure 500 "boom", false))
    ∧ (jobsStatus
         (ApiResult.success 200
           ({ files := some [], missing_required_sets := some [], status := some "generating" } : ListData))
         (ApiResult.success 200
           ({ files := some [], missing_required_sets := some [], status := some "draft" } : ListData))
       = (ApiResult.success 200
           ({ files := some [], missing_required_sets := some [], status := some "generating" } : ListData), false)) :=
  ⟨(C7_status_fallback_only_on_404 _ _).1.mpr ⟨"not found", rfl⟩,
   (C7_status_fallback_only_on_404 _ _).2.1 500 "boom" rfl (by decide),
   (C7_status_fallback_only_on_404 _ _).2.2.1 200 _ rfl⟩

/-- C8 counterexample: the server response is not authoritative for
`status` when its status field is absent — two states that differ only
in their prior status receive the same successful listing response
(files present, no status field) and end with different statuses, each
equal to its prior one, so the status is retained rather than
overwritten from the response. -/
theorem C8_status_not_overwritten_when_absent :
    (let d : ListData :=
       { files := some [{ file_set := "financials", filename := "f.pdf", key := "k", size := 1 }],
         missing_required_sets := some [], status := none }
     let sA : WizardState :=
       { jobId := some "job_1", uploads := [], missingRequired := ["financials"],
         status := "draft", autoDownloaded := false }
     let sB : WizardState := { sA with status := "pending_review" }
     (refreshUploads sA (.success 200 d)).status = "draft"
     ∧ (refreshUploads sB (.success 200 d)).status = "pending_review"
     ∧ (refreshUploads sA (.success 200 d)).uploads
         = [{ file_set := "financials", filename := "f.pdf", key := "k", size := 1 }]) := by
  decide

/-- C8 (amended): on a successful listing response for an active job,
`refreshUploads` overwrites `uploads` and `missingRequired` from the
response (defaulting to empty), and overwrites `status` exactly when
the response carries a non-empty status — an absent or empty status
retains the prior one; `pollOnce` reconciles status and files the same
way. -/
theorem C8_refresh_overwrites_with_status_retention :
    ∀ (s : WizardState) (j : String) (st : Nat) (d : ListData),
      s.jobId = some j → (j == "") = false →
      ((refreshUploads s (.success st d)).uploads = d.files.getD []
       ∧ (refreshUploads s (.success st d)).missingRequired = d.missing_required_sets.getD []
       ∧ (truthyStr d.status = false → (refreshUploads s (.success st d)).status = s.status)
       ∧ (∀ v, d.status = some v → (v == "") = false →
            (refreshUploads s (.success st d)).status = v))
      ∧ (∀ (adl : Bool) (st2 : Nat) (pd : PollData),
           (∀ v, effStatus pd = some v →
              (pollOnce adl (some j) s (.success st2 pd)).1.status = v)
           ∧ (effStatus pd = none →
              (pollOnce adl (some j) s (.success st2 pd)).1.status = s.status)
           ∧ (∀ fs, pd.files = some fs →
              (pollOnce adl (some j) s (.success st2 pd)).1.uploads = fs
              ∧ (pollOnce adl (some j) s (.success st2 pd)).1.missingRequired
                  = pd.missing_required_sets.getD [])) := by
  intro s j st d hjid hj
  constructor
  · refine ⟨?_, ?_, ?_, ?_⟩
    · cases hds : d.status <;> simp [refreshUploads, hjid, hj, hds]
    · cases hds : d.status <;> simp [refreshUploads, hjid, hj, hds]
    · intro ht
      cases hds : d.status with
      | none => simp [refreshUploads, hjid, hj, hds]
      | some v =>
        rw [hds] at ht
        simp only [truthyStr] at ht
        have hveq : (v == "") = true := by
          cases hvb : (v == "")
          · rw [hvb] at ht; exact absurd ht (by decide)
          · rfl
        simp [refreshUploads, hjid, hj, hds, hveq]
    · intro v hds hv
      simp [refreshUploads, hjid, hj, hds, hv]
  · intro adl st2 pd
    refine ⟨?_, ?_, ?_⟩
    · intro v hst
      cases hf : pd.files <;> simp [pollOnce, hj, hst, hf] <;> split <;> simp
    · intro hst
      cases hf : pd.files <;> simp [pollOnce, hj, hst, hf]
    · intro fs hf
      cases hst : effStatus pd <;> simp [pollOnce, hj, hst, hf] <;> split <;> simp

/-- Witness for C8: a refresh with a non-empty response status
overwrites status, uploads and missing sets from the response. -/
theorem C8_refresh_overwrites_with_status_retention_witness :
    (refreshUploads
       { jobId := some "job_1", uploads := [], missingRequired := ["financials"],
         status := "draft", autoDownloaded := false }
       (.success 200
         { files := some [{ file_set := "financials", filename := "f.pdf", key := "k", size := 1 }],
           missing_required_sets := some [], status := some "generating" })).status = "generating"
    ∧ (refreshUploads
         { jobId := some "job_1", uploads := [], missingRequired := ["financials"],
           status := "draft", autoDownloaded := false }
         (.success 200
           { files := some [{ file_set := "financials", filename := "f.pdf", key := "k", size := 1 }],
             missing_required_sets := some [], status := some "generating" })).missingRequired = [] :=
  ⟨((C8_refresh_overwrites_with_status_retention _ "job_1" 200 _ rfl (by decide)).1.2.2.2
      "generating" rfl (by decide)),
   ((C8_refresh_overwrites_with_status_retention _ "job_1" 200 _ rfl (by decide)).1.2.1)⟩

/-- C9: when the verify exchange fails — the request itself fails, or
the payload lacks a session token — nothing is written to the
persistent store (session and token are exactly what they were before
the attempt), the address is untouched, and the user is routed to the
login step. -/
theorem C9_verify_failure_writes_nothing :
    ∀ (now : String) (r : ApiResult VerifyPayload) (store : Store) (u : Url),
      (match r with
       | .failure _ _ => True
       | .success _ p => tokenOf p = none) →
      (verifyFlow now r store u).1 = store
      ∧ (verifyFlow now r store u).2.1 = u
      ∧ (verifyFlow now r store u).2.2 = Step.login := by
  intro now r store u h
  cases r with
  | failure st e => exact ⟨rfl, rfl, rfl⟩
  | success st p =>
    have h2 : tokenOf p = none := h
    simp [verifyFlow, onVerified, h2]

/-- Witness for C9: a timed-out verify request and a payload without a
session token both leave a populated store untouched and route to
login. -/
theorem C9_verify_failure_writes_nothing_witness :
    (verifyFlow "t0" (ApiResult.failure 0 "timeout")
       { session := none, sessionToken := some "old" } ⟨[("token", "onetime")]⟩).1
      = { session := none, sessionToken := some "old" }
    ∧ (verifyFlow "t0"
         (ApiResult.success 200
           { session_token := none, email := "a@b.com", access := .null,
             app_url := "https://app.strategythrust.com" })
         { session := none, sessionToken := some "old" } ⟨[("token", "onetime")]⟩).2.2
      = Step.login :=
  ⟨(C9_verify_failure_writes_nothing "t0" (ApiResult.failure 0 "timeout")
      { session := none, sessionToken := some "old" } ⟨[("token", "onetime")]⟩ trivial).1,
   (C9_verify_failure_writes_nothing "t0"
      (ApiResult.success 200
        { session_token := none, email := "a@b.com", access := .null,
          app_url := "https://app.strategythrust.com" })
      { session := none, sessionToken := some "old" } ⟨[("token", "onetime")]⟩ rfl).2.2⟩

/-- C10: the auto-download preference defaults to enabled —
`loadAutoDownload` returns `true` when nothing is stored under its key
or storage access throws, and returns `raw === "true"` exactly when a
raw value is present. -/
theorem C10_auto_download_default_true :
    (∀ e, loadAutoDownload (.error e) = true)
    ∧ loadAutoDownload (.ok none) = true
    ∧ (∀ raw, loadAutoDownload (.ok (some raw)) = (raw == "true"))
    ∧ loadAutoDownload (.ok (some "true")) = true
    ∧ loadAutoDownload (.ok (some "false")) = false
    ∧ loadAutoDownload (.ok (some "TRUE")) = false :=
  ⟨fun _ => rfl, rfl, fun _ => rfl, by decide, by decide, by decide⟩

end StrategyApp

